import Mathlib

/-!
Shallow embedding of the seat-reservation core of the atomic-ticket-booking
repository: the DynamoDB-backed seat-lock registry (SeatLockService.ts) and
the transactional booking pipeline (BookingService.ts), together with the
entity fields the two services read (Event.ts, Seat.ts, Booking.ts).

Conventions of the embedding:
- Times are absolute milliseconds, modelled as integers (Date.now()).
- JS numbers used for money are modelled as rationals; the JS expression
  `x || d` (which yields d when x is undefined, null or 0) is modelled by
  jsOrDefault.
- The DynamoDB table is a map from seatId to an optional item; a fallible
  registry read is an Except value, so that the error branches of the source
  are explicit.
- The relational store is a record of maps keyed by primary key; one call of
  a service method is a function from the pre-state to (result, post-state).
  A return before commit leaves the state unchanged (rollback).
-/

namespace TicketBooking

/-- Item stored in the seat-locks table (interface SeatLock). -/
structure SeatLock where
  seatId : String
  eventId : String
  userId : String
  lockId : String
  expiresAt : Int
  createdAt : Int
deriving DecidableEq

/-- The seat-locks table: at most one item per seatId. -/
abbrev Registry := String → Option SeatLock

/-- Result shape of the lock operations (interface LockResult). -/
structure LockResult where
  success : Bool
  lockId : Option String
  expiresAt : Option Int
  message : Option String
deriving DecidableEq

/-- The ConditionExpression of acquireLock:
`attribute_not_exists(seatId) OR expiresAt < :now`. -/
def lockCondition (reg : Registry) (seatId : String) (now : Int) : Bool :=
  match reg seatId with
  | none => true
  | some item => decide (item.expiresAt < now)

/-- acquireLock (SeatLockService.ts): generates a fresh lockId (passed in as
newLockId, for uuidv4()), sets expiresAt = now + lockDurationMs and issues the
conditional put; on a failed condition it returns the already-locked result
and leaves the table unchanged. -/
def acquireLock (reg : Registry) (seatId eventId userId newLockId : String)
    (now lockDurationMs : Int) : LockResult × Registry :=
  let expiresAt := now + lockDurationMs
  let seatLock : SeatLock :=
    { seatId := seatId, eventId := eventId, userId := userId, lockId := newLockId
      expiresAt := expiresAt, createdAt := now }
  if lockCondition reg seatId now then
    ({ success := true, lockId := some newLockId, expiresAt := some expiresAt
       message := some "Seat locked successfully" },
     fun s => if s = seatId then some seatLock else reg s)
  else
    ({ success := false, lockId := none, expiresAt := none
       message := some "Seat is already locked by another user" },
     reg)

/-- isLocked (SeatLockService.ts), over the outcome of the table read: a read
error takes the catch branch which returns true; a missing item gives false;
otherwise the test is expiresAt > now. -/
def isLocked (readResult : Except Unit (Option SeatLock)) (now : Int) : Bool :=
  match readResult with
  | Except.error _ => true
  | Except.ok none => false
  | Except.ok (some lock) => decide (lock.expiresAt > now)

/-- getLockInfo (SeatLockService.ts): returns the item only while it is still
valid; the catch branch returns none. -/
def getLockInfo (readResult : Except Unit (Option SeatLock)) (now : Int) :
    Option SeatLock :=
  match readResult with
  | Except.error _ => none
  | Except.ok none => none
  | Except.ok (some lock) => if lock.expiresAt > now then some lock else none

/-- validateLock (SeatLockService.ts): getLockInfo, then compare owner and
lock token. -/
def validateLock (reg : Registry) (seatId userId lockId : String) (now : Int) :
    Bool :=
  match getLockInfo (Except.ok (reg seatId)) now with
  | none => false
  | some lockInfo => lockInfo.userId == userId && lockInfo.lockId == lockId

/-- enum EventStatus (Event.ts). -/
inductive EventStatus where
  | DRAFT
  | PUBLISHED
  | SALES_OPEN
  | SALES_CLOSED
  | COMPLETED
  | CANCELLED
deriving DecidableEq

/-- enum SeatStatus (Seat.ts). -/
inductive SeatStatus where
  | AVAILABLE
  | BOOKED
  | MAINTENANCE
deriving DecidableEq

/-- enum BookingStatus (BookingService.ts). -/
inductive BookingStatus where
  | PENDING
  | CONFIRMED
  | CANCELLED
  | REFUNDED
deriving DecidableEq

/-- The Event columns the booking pipeline reads (Event.ts). -/
structure Event where
  id : String
  status : EventStatus
  basePrice : Option ℚ
  maxCapacity : Int
  availableSeats : Int
  eventDate : Int
deriving DecidableEq

/-- Virtual field canPurchaseTickets (Event.ts):
status = SALES_OPEN, availableSeats > 0 and now < eventDate. -/
def canPurchaseTickets (e : Event) (now : Int) : Bool :=
  decide (e.status = EventStatus.SALES_OPEN) &&
  decide (e.availableSeats > 0) &&
  decide (now < e.eventDate)

/-- The Seat columns the booking pipeline reads (Seat.ts). -/
structure Seat where
  id : String
  status : SeatStatus
  priceModifier : Option ℚ
deriving DecidableEq

/-- The Booking columns the services touch (Booking.ts); the booking-seat
rows of a booking are carried inline as (seatId, priceAtBooking) pairs. -/
structure Booking where
  id : String
  userId : String
  eventId : String
  totalPrice : ℚ
  status : BookingStatus
  paymentIntentId : Option String
  bookingDate : Int
  confirmedAt : Option Int
  cancelledAt : Option Int
  cancellationReason : Option String
  bookingSeats : List (String × ℚ)
deriving DecidableEq

/-- The relational store as seen by the booking service. -/
structure DBState where
  events : String → Option Event
  seats : String → Option Seat
  bookings : String → Option Booking

/-- interface BookingRequest (BookingService.ts). -/
structure BookingRequest where
  userId : String
  eventId : String
  seatIds : List String
  lockIds : List String
  paymentIntentId : Option String

/-- interface BookingResult (BookingService.ts). -/
structure BookingResult where
  success : Bool
  booking : Option Booking
  message : Option String
  failureReason : Option String
deriving DecidableEq

/-- A failure result: success false with a message and a failureReason. -/
def mkFail (msg code : String) : BookingResult :=
  { success := false, booking := none, message := some msg
    failureReason := some code }

/-- The JS expression `x || d` on an optional number: undefined and 0 both
fall back to the default. -/
def jsOrDefault (v : Option ℚ) (d : ℚ) : ℚ :=
  match v with
  | none => d
  | some x => if x = 0 then d else x

/-- calculateSeatPrice (BookingService.ts):
(event.basePrice || 0) * (seat.priceModifier || 1). -/
def calculateSeatPrice (event : Event) (seat : Seat) : ℚ :=
  jsOrDefault event.basePrice 0 * jsOrDefault seat.priceModifier 1

/-- calculateTotalPrice (BookingService.ts): reduce over the seats, adding
each seat price to the accumulator, starting from 0. -/
def calculateTotalPrice (event : Event) (seats : List Seat) : ℚ :=
  seats.foldl (fun total seat => total + calculateSeatPrice event seat) 0

/-- validateSeatLocks (BookingService.ts): validateLock on every
(seatIds[i], lockIds[i]) pair; true when no pair fails. It is only called
after the pipeline has checked the two lists have equal length, so pairing
by zip agrees with indexing. -/
def validateSeatLocks (reg : Registry) (userId : String)
    (seatIds lockIds : List String) (now : Int) : Bool :=
  (seatIds.zip lockIds).all fun p => validateLock reg p.1 userId p.2 now

/-- findByIds(Seat, seatIds) (BookingService.ts step 3): a SELECT by a set
of primary keys returns each matching row once, so duplicated ids collapse
and absent ids produce no row. -/
def findSeatsByIds (db : DBState) (seatIds : List String) : List Seat :=
  seatIds.dedup.filterMap db.seats

/-- createBooking (BookingService.ts): the commit pipeline. Failure exits
before commit roll the transaction back, so they return the pre-state
unchanged. newBookingId stands for the uuidv4() of the booking row. The
inventory update of the source is the unconditional
`available_seats = available_seats - N` keyed on the event id alone. -/
def createBooking (db : DBState) (reg : Registry) (req : BookingRequest)
    (now : Int) (newBookingId : String) : BookingResult × DBState :=
  if req.seatIds.length ≠ req.lockIds.length then
    (mkFail "Mismatch between seat IDs and lock IDs" "INVALID_REQUEST", db)
  else if validateSeatLocks reg req.userId req.seatIds req.lockIds now then
    match db.events req.eventId with
    | none => (mkFail "Event not found" "EVENT_NOT_FOUND", db)
    | some event =>
      if canPurchaseTickets event now then
        if (findSeatsByIds db req.seatIds).length ≠ req.seatIds.length then
          (mkFail "Some seats not found" "SEATS_NOT_FOUND", db)
        else
          let seats := findSeatsByIds db req.seatIds
          let totalPrice := calculateTotalPrice event seats
          let bookingSeats := seats.map fun s => (s.id, calculateSeatPrice event s)
          let booking : Booking :=
            { id := newBookingId, userId := req.userId, eventId := req.eventId
              totalPrice := totalPrice, status := BookingStatus.PENDING
              paymentIntentId := req.paymentIntentId, bookingDate := now
              confirmedAt := none, cancelledAt := none, cancellationReason := none
              bookingSeats := bookingSeats }
          let db1 : DBState :=
            { db with bookings :=
                fun i => if i = newBookingId then some booking else db.bookings i }
          let db2 : DBState :=
            { db1 with events :=
                fun i => if i = req.eventId then
                  (db1.events i).map fun e =>
                    { e with availableSeats :=
                        e.availableSeats - (req.seatIds.length : Int) }
                else db1.events i }
          let db3 : DBState :=
            { db2 with seats :=
                fun i => if i ∈ req.seatIds then
                  (db2.seats i).map fun s => { s with status := SeatStatus.BOOKED }
                else db2.seats i }
          ({ success := true, booking := some booking
             message := some "Booking created successfully", failureReason := none },
           db3)
      else (mkFail "Tickets are not available for purchase" "SALES_CLOSED", db)
  else
    (mkFail "One or more seat locks are invalid or have expired" "INVALID_LOCKS", db)

/-- confirmBooking (BookingService.ts): findOne by id and paymentIntentId,
reject a non-PENDING booking, otherwise set CONFIRMED and confirmedAt. -/
def confirmBooking (db : DBState) (bookingId paymentIntentId : String)
    (now : Int) : BookingResult × DBState :=
  match db.bookings bookingId with
  | none =>
    (mkFail "Booking not found or payment intent mismatch" "BOOKING_NOT_FOUND", db)
  | some booking =>
    if booking.paymentIntentId = some paymentIntentId then
      if booking.status = BookingStatus.PENDING then
        let updated :=
          { booking with status := BookingStatus.CONFIRMED, confirmedAt := some now }
        ({ success := true, booking := some updated
           message := some "Booking confirmed successfully", failureReason := none },
         { db with bookings :=
             fun i => if i = bookingId then some updated else db.bookings i })
      else (mkFail "Booking is not in pending status" "INVALID_STATUS", db)
    else
      (mkFail "Booking not found or payment intent mismatch" "BOOKING_NOT_FOUND", db)

/-- cancelBooking (BookingService.ts): findOne by id and userId, reject only
a CANCELLED booking, otherwise set CANCELLED, return the booked seats to
AVAILABLE and add the seat count back to the event inventory. -/
def cancelBooking (db : DBState) (bookingId userId : String)
    (reason : Option String) (now : Int) : BookingResult × DBState :=
  match db.bookings bookingId with
  | none => (mkFail "Booking not found or unauthorized" "BOOKING_NOT_FOUND", db)
  | some booking =>
    if booking.userId = userId then
      if booking.status = BookingStatus.CANCELLED then
        (mkFail "Booking is already cancelled" "ALREADY_CANCELLED", db)
      else
        let seatIds := booking.bookingSeats.map Prod.fst
        let updated :=
          { booking with
            status := BookingStatus.CANCELLED
            cancelledAt := some now
            cancellationReason := reason }
        let db1 : DBState :=
          { db with bookings :=
              fun i => if i = bookingId then some updated else db.bookings i }
        let db2 : DBState :=
          { db1 with seats :=
              fun i => if i ∈ seatIds then
                (db1.seats i).map fun s => { s with status := SeatStatus.AVAILABLE }
              else db1.seats i }
        let db3 : DBState :=
          { db2 with events :=
              fun i => if i = booking.eventId then
                (db2.events i).map fun e =>
                  { e with availableSeats :=
                      e.availableSeats + (seatIds.length : Int) }
              else db2.events i }
        ({ success := true, booking := none
           message := some "Booking cancelled successfully", failureReason := none },
         db3)
    else (mkFail "Booking not found or unauthorized" "BOOKING_NOT_FOUND", db)

/-! ## Concrete states used by the closed theorems and witnesses -/

/-- An event with one remaining seat, sales open. -/
def demoEvent : Event :=
  { id := "E1", status := EventStatus.SALES_OPEN, basePrice := some 10
    maxCapacity := 10, availableSeats := 1, eventDate := 1000 }

/-- An available seat. -/
def demoSeat1 : Seat :=
  { id := "S1", status := SeatStatus.AVAILABLE, priceModifier := some 1 }

/-- A second available seat. -/
def demoSeat2 : Seat :=
  { id := "S2", status := SeatStatus.AVAILABLE, priceModifier := some 1 }

/-- A live lock on S1 owned by U1. -/
def demoLock1 : SeatLock :=
  { seatId := "S1", eventId := "E1", userId := "U1", lockId := "L1"
    expiresAt := 500, createdAt := 0 }

/-- A live lock on S2 owned by U1. -/
def demoLock2 : SeatLock :=
  { seatId := "S2", eventId := "E1", userId := "U1", lockId := "L2"
    expiresAt := 500, createdAt := 0 }

/-- Registry holding the two demo locks. -/
def demoReg : Registry := fun s =>
  if s = "S1" then some demoLock1 else if s = "S2" then some demoLock2 else none

/-- Store holding the demo event and the two demo seats. -/
def demoDB : DBState :=
  { events := fun i => if i = "E1" then some demoEvent else none
    seats := fun i =>
      if i = "S1" then some demoSeat1
      else if i = "S2" then some demoSeat2 else none
    bookings := fun _ => none }

/-- A commit request for both demo seats with the matching locks. -/
def demoRequest : BookingRequest :=
  { userId := "U1", eventId := "E1", seatIds := ["S1", "S2"]
    lockIds := ["L1", "L2"], paymentIntentId := none }

/-- Seat S2 in BOOKED status. -/
def bookedSeat2 : Seat :=
  { id := "S2", status := SeatStatus.BOOKED, priceModifier := some 1 }

/-- The demo store with seat S2 already BOOKED. -/
def bookedSeatDB : DBState :=
  { demoDB with seats :=
      fun i => if i = "S2" then some bookedSeat2 else demoDB.seats i }

/-- A commit request naming the same seat twice. -/
def dupRequest : BookingRequest :=
  { userId := "U1", eventId := "E1", seatIds := ["S1", "S1"]
    lockIds := ["L1", "L1"], paymentIntentId := none }

/-- A commit request with mismatched list lengths. -/
def mismatchRequest : BookingRequest :=
  { userId := "U1", eventId := "E1", seatIds := ["S1"], lockIds := []
    paymentIntentId := none }

/-- A live lock on a seat id that has no row in the seats table. -/
def ghostLock : SeatLock :=
  { seatId := "SX", eventId := "E1", userId := "U1", lockId := "LX"
    expiresAt := 500, createdAt := 0 }

/-- Registry with the demo locks plus the ghost lock. -/
def ghostReg : Registry := fun s =>
  if s = "SX" then some ghostLock else demoReg s

/-- A commit request including the seat id that has no row. -/
def ghostRequest : BookingRequest :=
  { userId := "U1", eventId := "E1", seatIds := ["S1", "SX"]
    lockIds := ["L1", "LX"], paymentIntentId := none }

/-- A booking in the terminal REFUNDED state. -/
def refundedBooking : Booking :=
  { id := "B9", userId := "U1", eventId := "E1", totalPrice := 10
    status := BookingStatus.REFUNDED, paymentIntentId := some "P1"
    bookingDate := 0, confirmedAt := none, cancelledAt := none
    cancellationReason := none, bookingSeats := [("S1", 10)] }

/-- The demo store with the refunded booking. -/
def refundedDB : DBState :=
  { demoDB with bookings :=
      fun i => if i = "B9" then some refundedBooking else none }

/-- A booking in the terminal CANCELLED state. -/
def cancelledBooking : Booking :=
  { id := "B8", userId := "U1", eventId := "E1", totalPrice := 10
    status := BookingStatus.CANCELLED, paymentIntentId := some "P1"
    bookingDate := 0, confirmedAt := none, cancelledAt := some 10
    cancellationReason := none, bookingSeats := [("S1", 10)] }

/-- The demo store with the cancelled booking. -/
def cancelledDB : DBState :=
  { demoDB with bookings :=
      fun i => if i = "B8" then some cancelledBooking else none }

/-- A lock whose expiry instant is exactly 100. -/
def boundaryLock : SeatLock :=
  { seatId := "S1", eventId := "E1", userId := "U0", lockId := "L0"
    expiresAt := 100, createdAt := 0 }

/-- Registry holding only the boundary lock. -/
def boundaryReg : Registry := fun s =>
  if s = "S1" then some boundaryLock else none

/-- A lock used by the acquire boundary witness, expiring at 100. -/
def c6Lock : SeatLock :=
  { seatId := "S1", eventId := "E1", userId := "U0", lockId := "L0"
    expiresAt := 100, createdAt := 0 }

/-- Registry holding only c6Lock. -/
def c6Reg : Registry := fun s => if s = "S1" then some c6Lock else none

/-- Event with base price 10.05 used by the pricing counterexample. -/
def priceEvent : Event :=
  { id := "E2", status := EventStatus.SALES_OPEN, basePrice := some (201/20)
    maxCapacity := 10, availableSeats := 5, eventDate := 1000 }

/-- Seat with price modifier 1.5 used by the pricing counterexample. -/
def premiumSeat : Seat :=
  { id := "S5", status := SeatStatus.AVAILABLE, priceModifier := some (3/2) }

/-- Banker's rounding (round half to even) of a rational to an integer;
written from the wording of the spec, for comparison with the source
pricing function. -/
def bankersRound (q : ℚ) : ℤ :=
  if q - (⌊q⌋ : ℚ) < 1/2 then ⌊q⌋
  else if (1 : ℚ)/2 < q - (⌊q⌋ : ℚ) then ⌊q⌋ + 1
  else if ⌊q⌋ % 2 = 0 then ⌊q⌋ else ⌊q⌋ + 1

/-- Total price as the spec words it: the sum of base price times modifier,
as a fixed-point value with 2 decimal places, banker's rounding applied at
the sum. Written from the spec for comparison with calculateTotalPrice. -/
def specTotalPrice (event : Event) (seats : List Seat) : ℚ :=
  (bankersRound (100 * (seats.map (calculateSeatPrice event)).sum) : ℚ) / 100

/-! ## Helper lemmas -/

/-- The acquire condition holds iff the table has no item for the seat or
the item has already expired. -/
theorem lockCondition_iff (reg : Registry) (seatId : String) (now : Int) :
    lockCondition reg seatId now = true ↔
      reg seatId = none ∨ ∃ item, reg seatId = some item ∧ item.expiresAt < now := by
  unfold lockCondition
  cases h : reg seatId <;> simp

/-- acquireLock succeeds exactly when the conditional-put predicate holds. -/
theorem acquireLock_success_iff (reg : Registry)
    (seatId eventId userId newLockId : String) (now ttl : Int) :
    (acquireLock reg seatId eventId userId newLockId now ttl).1.success = true ↔
      lockCondition reg seatId now = true := by
  unfold acquireLock
  by_cases h : lockCondition reg seatId now <;> simp [h]

/-- A successful createBooking passed the lock-validation step. -/
theorem createBooking_success_locks_valid (db : DBState) (reg : Registry)
    (req : BookingRequest) (now : Int) (bid : String)
    (hs : (createBooking db reg req now bid).1.success = true) :
    validateSeatLocks reg req.userId req.seatIds req.lockIds now = true := by
  unfold createBooking at hs
  split at hs
  · exact absurd hs (by simp [mkFail])
  · split at hs
    · assumption
    · exact absurd hs (by simp [mkFail])

/-- Folding addition of a mapped price over a list from any accumulator. -/
theorem foldl_price_eq_sum (event : Event) (l : List Seat) (a : ℚ) :
    l.foldl (fun t s => t + calculateSeatPrice event s) a =
      a + (l.map (calculateSeatPrice event)).sum := by
  induction l generalizing a with
  | nil => simp
  | cons x xs ih => simp [ih, add_assoc]

/-! ## Claim theorems -/

/-- Claim C1: the spec says the inventory decrement in createBooking is the
conditional update `available_seats = available_seats - N WHERE available_seats >= N`,
rolled back with SALES_CLOSED when it affects zero rows, so a commit never
drives available_seats below zero. The source update is unconditional: with
availableSeats = 1 and a two-seat request holding valid locks, the commit
succeeds, does not return SALES_CLOSED, and leaves availableSeats = -1. -/
theorem createBooking_decrement_unconditional :
    demoEvent.availableSeats = 1 ∧ demoRequest.seatIds.length = 2 ∧
    (createBooking demoDB demoReg demoRequest 100 "B1").1.success = true ∧
    (createBooking demoDB demoReg demoRequest 100 "B1").1.failureReason ≠
      some "SALES_CLOSED" ∧
    ((createBooking demoDB demoReg demoRequest 100 "B1").2.events "E1").map
      Event.availableSeats = some (-1) := by decide

/-- Claim C2: the spec invariant 0 ≤ available_seats ≤ max_capacity is not
preserved by createBooking: from a state satisfying the bounds, a successful
two-seat commit against an event with one available seat leaves
availableSeats = -1, below the lower bound. -/
theorem createBooking_breaks_lower_bound :
    (0 ≤ demoEvent.availableSeats ∧ demoEvent.availableSeats ≤ demoEvent.maxCapacity) ∧
    (createBooking demoDB demoReg demoRequest 100 "B1").1.success = true ∧
    ((createBooking demoDB demoReg demoRequest 100 "B1").2.events "E1").map
      Event.availableSeats = some (-1) ∧ (-1 : Int) < 0 := by decide

/-- Claim C3 counterexample: a loaded seat with status BOOKED does not make
createBooking return SEATS_NOT_AVAILABLE; the source has no seat-status check
and the commit succeeds. -/
theorem createBooking_books_unavailable_seat :
    (bookedSeatDB.seats "S2").map Seat.status = some SeatStatus.BOOKED ∧
    (createBooking bookedSeatDB demoReg demoRequest 100 "B2").1.success = true ∧
    (createBooking bookedSeatDB demoReg demoRequest 100 "B2").1.failureReason ≠
      some "SEATS_NOT_AVAILABLE" := by decide

/-- Claim C3 (amended): after the earlier steps pass, if the number of seat
rows found for the requested ids differs from the number requested, the
result is SEATS_NOT_FOUND and the transaction is rolled back (the store is
unchanged, no booking is created); there is no seat-status check. -/
theorem createBooking_count_mismatch (db : DBState) (reg : Registry)
    (req : BookingRequest) (now : Int) (bid : String) (event : Event)
    (hlen : req.seatIds.length = req.lockIds.length)
    (hval : validateSeatLocks reg req.userId req.seatIds req.lockIds now = true)
    (hev : db.events req.eventId = some event)
    (hcan : canPurchaseTickets event now = true)
    (hcount : (findSeatsByIds db req.seatIds).length ≠ req.seatIds.length) :
    createBooking db reg req now bid =
      (mkFail "Some seats not found" "SEATS_NOT_FOUND", db) := by
  unfold createBooking
  simp only [hev]
  rw [if_neg (by omega), if_pos hval, if_pos hcan, if_pos hcount]

/-- Witness for the amended C3 theorem at a concrete input: a request for a
locked seat id that has no seat row. -/
theorem createBooking_count_mismatch_witness :
    createBooking demoDB ghostReg ghostRequest 100 "B5" =
      (mkFail "Some seats not found" "SEATS_NOT_FOUND", demoDB) :=
  createBooking_count_mismatch demoDB ghostReg ghostRequest 100 "B5" demoEvent
    rfl (by decide) (by decide) (by decide) (by decide)

/-- Claim C4 counterexample: a request whose seat list contains a duplicate
is not rejected as INVALID_REQUEST; the duplicated id collapses in the seat
load and the result is SEATS_NOT_FOUND. -/
theorem createBooking_duplicate_not_invalid_request :
    dupRequest.seatIds = ["S1", "S1"] ∧
    (createBooking demoDB demoReg dupRequest 100 "B3").1.failureReason =
      some "SEATS_NOT_FOUND" ∧
    (createBooking demoDB demoReg dupRequest 100 "B3").1.failureReason ≠
      some "INVALID_REQUEST" := by decide

/-- Claim C4 (amended): createBooking returns INVALID_REQUEST exactly when
the seat and lock lists differ in length, and in that case nothing is
mutated; emptiness and duplicate seat ids are not checked. -/
theorem createBooking_invalid_request_iff (db : DBState) (reg : Registry)
    (req : BookingRequest) (now : Int) (bid : String) :
    ((createBooking db reg req now bid).1.failureReason = some "INVALID_REQUEST" ↔
      req.seatIds.length ≠ req.lockIds.length)
    ∧ (req.seatIds.length ≠ req.lockIds.length →
        createBooking db reg req now bid =
          (mkFail "Mismatch between seat IDs and lock IDs" "INVALID_REQUEST", db)) := by
  constructor
  · constructor
    · intro h
      by_contra hlen
      unfold createBooking at h
      rw [if_neg (fun hc => hc hlen)] at h
      split at h
      · split at h
        · simp [mkFail] at h
        · split at h
          · split at h <;> simp [mkFail] at h
          · simp [mkFail] at h
      · simp [mkFail] at h
    · intro hne
      unfold createBooking
      rw [if_pos hne]
      simp [mkFail]
  · intro hne
    unfold createBooking
    rw [if_pos hne]

/-- Witness for the amended C4 theorem at a concrete input: one seat id and
no lock ids. -/
theorem createBooking_invalid_request_iff_witness :
    createBooking demoDB demoReg mismatchRequest 100 "B4" =
      (mkFail "Mismatch between seat IDs and lock IDs" "INVALID_REQUEST", demoDB) :=
  (createBooking_invalid_request_iff demoDB demoReg mismatchRequest 100 "B4").2
    (by decide)

/-- Claim C5: lock-then-commit law. If createBooking returns success then for
every index i of the request, validateLock held for the pair
(seatIds[i], lockIds[i]) with the requesting user at entry. -/
theorem booking_success_held_valid_locks (db : DBState) (reg : Registry)
    (req : BookingRequest) (now : Int) (bid : String)
    (hs : (createBooking db reg req now bid).1.success = true)
    (i : Nat) (hi : i < req.seatIds.length) (hl : i < req.lockIds.length) :
    validateLock reg (req.seatIds.get ⟨i, hi⟩) req.userId
      (req.lockIds.get ⟨i, hl⟩) now = true := by
  have hv := createBooking_success_locks_valid db reg req now bid hs
  unfold validateSeatLocks at hv
  rw [List.all_eq_true] at hv
  have hz : i < (req.seatIds.zip req.lockIds).length := by
    rw [List.length_zip]; omega
  have hget : (req.seatIds.zip req.lockIds).get ⟨i, hz⟩ =
      (req.seatIds.get ⟨i, hi⟩, req.lockIds.get ⟨i, hl⟩) := by
    simp [List.getElem_zip]
  have hmem := List.get_mem (req.seatIds.zip req.lockIds) i hz
  rw [hget] at hmem
  exact hv _ hmem

/-- Witness for the C5 theorem: the demo commit succeeds and the theorem
yields the validity of the first lock pair. -/
theorem booking_success_held_valid_locks_witness :
    validateLock demoReg "S1" "U1" "L1" 100 = true :=
  booking_success_held_valid_locks demoDB demoReg demoRequest 100 "B1"
    (by decide) 0 (by decide) (by decide)

/-- Claim C6: acquireLock stores a fresh lock with expiry now + TTL and
succeeds iff the registry has no item for the seat or the existing item has
expires_at < now, failing with the already-locked result otherwise. Boundary
cases: a stale (already expired) item lets acquire succeed, in particular at
now = expires_at + 1; an item still present at now = expires_at - 1 is live
and acquire fails (no item can be stale at that instant). -/
theorem acquireLock_spec (reg : Registry) (seatId eventId userId newLockId : String)
    (now ttl : Int) :
    ((acquireLock reg seatId eventId userId newLockId now ttl).1.success = true ↔
      reg seatId = none ∨ ∃ item, reg seatId = some item ∧ item.expiresAt < now)
    ∧ ((acquireLock reg seatId eventId userId newLockId now ttl).1.success = true →
        (acquireLock reg seatId eventId userId newLockId now ttl).1.lockId =
          some newLockId ∧
        (acquireLock reg seatId eventId userId newLockId now ttl).1.expiresAt =
          some (now + ttl) ∧
        (acquireLock reg seatId eventId userId newLockId now ttl).2 seatId =
          some { seatId := seatId, eventId := eventId, userId := userId
                 lockId := newLockId, expiresAt := now + ttl, createdAt := now })
    ∧ ((acquireLock reg seatId eventId userId newLockId now ttl).1.success = false →
        (acquireLock reg seatId eventId userId newLockId now ttl).1.message =
          some "Seat is already locked by another user")
    ∧ (∀ item, reg seatId = some item → item.expiresAt < now →
        (acquireLock reg seatId eventId userId newLockId now ttl).1.success = true)
    ∧ (∀ item, reg seatId = some item → now = item.expiresAt + 1 →
        (acquireLock reg seatId eventId userId newLockId now ttl).1.success = true)
    ∧ (∀ item, reg seatId = some item → now = item.expiresAt - 1 →
        (acquireLock reg seatId eventId userId newLockId now ttl).1.success = false) := by
  refine ⟨?_, ?_, ?_, ?_, ?_, ?_⟩
  · rw [acquireLock_success_iff, lockCondition_iff]
  · intro hs
    have hc : lockCondition reg seatId now = true :=
      (acquireLock_success_iff reg seatId eventId userId newLockId now ttl).mp hs
    unfold acquireLock
    rw [if_pos hc]
    simp
  · intro hs
    have hc : lockCondition reg seatId now = false := by
      cases hcl : lockCondition reg seatId now
      · rfl
      · have hsucc := (acquireLock_success_iff reg seatId eventId userId newLockId
          now ttl).mpr hcl
        rw [hs] at hsucc
        exact absurd hsucc (by decide)
    unfold acquireLock
    rw [if_neg (by simp [hc])]
  · intro item hitem hlt
    rw [acquireLock_success_iff, lockCondition_iff]
    exact Or.inr ⟨item, hitem, hlt⟩
  · intro item hitem hnow
    rw [acquireLock_success_iff, lockCondition_iff]
    exact Or.inr ⟨item, hitem, by omega⟩
  · intro item hitem hnow
    have : ¬ (lockCondition reg seatId now = true) := by
      rw [lockCondition_iff]
      rintro (hn | ⟨it, hit, hlt⟩)
      · rw [hitem] at hn; exact Option.noConfusion hn
      · rw [hitem] at hit
        cases hit
        omega
    have hs := (acquireLock_success_iff reg seatId eventId userId newLockId now ttl)
    by_contra hss
    simp only [Bool.not_eq_false] at hss
    exact this (hs.mp hss)

/-- Witness for the C6 theorem: against a lock expiring at 100, acquire at
now = 101 succeeds and acquire at now = 99 fails. -/
theorem acquireLock_spec_witness :
    (acquireLock c6Reg "S1" "E1" "U1" "L9" 101 300).1.success = true ∧
    (acquireLock c6Reg "S1" "E1" "U1" "L9" 99 300).1.success = false := by
  constructor
  · exact (acquireLock_spec c6Reg "S1" "E1" "U1" "L9" 101 300).2.2.2.2.1 c6Lock
      (by decide) (by decide)
  · exact (acquireLock_spec c6Reg "S1" "E1" "U1" "L9" 99 300).2.2.2.2.2 c6Lock
      (by decide) (by decide)

/-- Claim C7 counterexample: a REFUNDED booking is not terminal under cancel;
cancelBooking transitions it to CANCELLED and reports success instead of
ALREADY_CANCELLED. -/
theorem cancelBooking_cancels_refunded :
    (refundedDB.bookings "B9").map Booking.status = some BookingStatus.REFUNDED ∧
    (cancelBooking refundedDB "B9" "U1" none 50).1.success = true ∧
    (cancelBooking refundedDB "B9" "U1" none 50).1.failureReason ≠
      some "ALREADY_CANCELLED" ∧
    ((cancelBooking refundedDB "B9" "U1" none 50).2.bookings "B9").map
      Booking.status = some BookingStatus.CANCELLED := by decide

/-- Claim C7 (amended): confirm rejects any booking in CANCELLED or REFUNDED
state with INVALID_STATUS (or BOOKING_NOT_FOUND on payment-intent mismatch)
without mutating the store; cancel rejects a CANCELLED booking with
ALREADY_CANCELLED without mutation, but transitions a REFUNDED booking to
CANCELLED: only CANCELLED is terminal. -/
theorem terminal_status_behaviour (db : DBState) (bookingId pid uid : String)
    (reason : Option String) (now : Int) (b : Booking)
    (hb : db.bookings bookingId = some b) :
    ((b.status = BookingStatus.CANCELLED ∨ b.status = BookingStatus.REFUNDED) →
      (confirmBooking db bookingId pid now).1.success = false ∧
      (confirmBooking db bookingId pid now).2 = db ∧
      (b.paymentIntentId = some pid →
        (confirmBooking db bookingId pid now).1.failureReason =
          some "INVALID_STATUS"))
    ∧ (b.userId = uid → b.status = BookingStatus.CANCELLED →
        cancelBooking db bookingId uid reason now =
          (mkFail "Booking is already cancelled" "ALREADY_CANCELLED", db))
    ∧ (b.userId = uid → b.status = BookingStatus.REFUNDED →
        (cancelBooking db bookingId uid reason now).1.success = true ∧
        ((cancelBooking db bookingId uid reason now).2.bookings bookingId).map
          Booking.status = some BookingStatus.CANCELLED) := by
  refine ⟨?_, ?_, ?_⟩
  · intro hst
    have hnp : ¬ (b.status = BookingStatus.PENDING) := by
      rcases hst with h | h <;> simp [h]
    unfold confirmBooking
    simp only [hb]
    by_cases hp : b.paymentIntentId = some pid
    · rw [if_pos hp, if_neg hnp]
      exact ⟨rfl, rfl, fun _ => rfl⟩
    · rw [if_neg hp]
      exact ⟨rfl, rfl, fun hpp => absurd hpp hp⟩
  · intro huid hst
    unfold cancelBooking
    simp only [hb]
    rw [if_pos huid, if_pos hst]
  · intro huid hst
    have hnc : ¬ (b.status = BookingStatus.CANCELLED) := by simp [hst]
    unfold cancelBooking
    simp only [hb]
    rw [if_pos huid, if_neg hnc]
    simp

/-- Witness for the amended C7 theorem: confirm on a CANCELLED booking gives
INVALID_STATUS without mutation, and cancel on it gives ALREADY_CANCELLED
without mutation. -/
theorem terminal_status_behaviour_witness :
    (confirmBooking cancelledDB "B8" "P1" 50).1.failureReason =
      some "INVALID_STATUS" ∧
    cancelBooking cancelledDB "B8" "U1" none 50 =
      (mkFail "Booking is already cancelled" "ALREADY_CANCELLED", cancelledDB) := by
  constructor
  · exact ((terminal_status_behaviour cancelledDB "B8" "P1" "U1" none 50
      cancelledBooking (by decide)).1 (Or.inl (by decide))).2.2 (by decide)
  · exact (terminal_status_behaviour cancelledDB "B8" "P1" "U1" none 50
      cancelledBooking (by decide)).2.1 (by decide) (by decide)

/-- Claim C8: isLocked is true iff the read returns an item with
expires_at > now, and on a read error the catch branch returns true,
never false (fail-closed). -/
theorem isLocked_spec (now : Int) :
    (∀ item : Option SeatLock,
      (isLocked (Except.ok item) now = true ↔
        ∃ lock, item = some lock ∧ lock.expiresAt > now))
    ∧ isLocked (Except.error ()) now = true := by
  constructor
  · intro item
    cases item <;> simp [isLocked]
  · rfl

/-- Witness for the C8 theorem: a lock expiring at 100 is reported locked at
now = 99. -/
theorem isLocked_spec_witness :
    isLocked (Except.ok (some boundaryLock)) 99 = true :=
  ((isLocked_spec 99).1 (some boundaryLock)).mpr ⟨boundaryLock, rfl, by decide⟩

/-- Claim C9 counterexample: for base price 10.05 and modifier 1.5 the source
total is the raw product 15.075 = 603/40, which is not the 2-decimal
banker's-rounded sum 15.08 = 377/25 the spec describes: no fixed-point
quantisation or rounding happens in the code. -/
theorem calculateTotalPrice_not_bankers_fixed_point :
    calculateTotalPrice priceEvent [premiumSeat] = 603/40 ∧
    specTotalPrice priceEvent [premiumSeat] = 377/25 ∧
    calculateTotalPrice priceEvent [premiumSeat] ≠
      specTotalPrice priceEvent [premiumSeat] := by
  have h1 : calculateTotalPrice priceEvent [premiumSeat] = 603/40 := by
    norm_num [calculateTotalPrice, calculateSeatPrice, jsOrDefault, priceEvent,
      premiumSeat, List.foldl_cons, List.foldl_nil]
  have hsum : (List.map (calculateSeatPrice priceEvent) [premiumSeat]).sum =
      (603/40 : ℚ) := by
    norm_num [calculateSeatPrice, jsOrDefault, priceEvent, premiumSeat,
      List.map_cons, List.map_nil, List.sum_cons, List.sum_nil]
  have hbr : bankersRound (3015/2) = 1508 := by
    unfold bankersRound
    rw [show ⌊(3015/2 : ℚ)⌋ = 1507 by norm_num]
    rw [if_neg (by push_cast; norm_num), if_neg (by push_cast; norm_num),
      if_neg (by decide)]
    norm_num
  have h2 : specTotalPrice priceEvent [premiumSeat] = 377/25 := by
    unfold specTotalPrice
    rw [hsum, show (100 : ℚ) * (603/40) = 3015/2 by norm_num, hbr]
    norm_num
  refine ⟨h1, h2, ?_⟩
  rw [h1, h2]
  norm_num

/-- Claim C9 (amended): total_price is the exact rational sum over the seats
of (base_price or 0) × (price_modifier or 1), with no fixed-point
representation and no rounding step. -/
theorem calculateTotalPrice_eq_sum (event : Event) (seats : List Seat) :
    calculateTotalPrice event seats = (seats.map (calculateSeatPrice event)).sum := by
  have key := foldl_price_eq_sum event seats 0
  simpa [calculateTotalPrice] using key

/-- Witness for the amended C9 theorem at the concrete pricing input. -/
theorem calculateTotalPrice_eq_sum_witness :
    calculateTotalPrice priceEvent [premiumSeat] =
      (List.map (calculateSeatPrice priceEvent) [premiumSeat]).sum :=
  calculateTotalPrice_eq_sum priceEvent [premiumSeat]

/-- Claim C10: at the instant now = expires_at, isLocked reports the seat
unlocked (its test is expires_at > now) while acquireLock still fails with
the already-locked result (its predicate needs expires_at < now). -/
theorem boundary_unlocked_but_unacquirable :
    boundaryLock.expiresAt = 100 ∧
    isLocked (Except.ok (boundaryReg "S1")) 100 = false ∧
    (acquireLock boundaryReg "S1" "E1" "U2" "L5" 100 300).1.success = false ∧
    (acquireLock boundaryReg "S1" "E1" "U2" "L5" 100 300).1.message =
      some "Seat is already locked by another user" := by decide

end TicketBooking
